import Mathlib

/-!
# Verification of the retry-with-backoff request helper

Shallow embedding of `get_with_backoff` from the notebook on retries and
timeouts (`src/unnamed/part_004`), together with the surrounding HTTP
semantics it relies on:

```python
def get_with_backoff(url, max_retries=3):
    delay=1
    for attempt in range(1, max_retries + 1):
        print(f"Attempt {attempt}/{max_retries}...")
        try:
            res = requests.get(url, timeout=10)
            res.raise_for_status()
            print(f"Succeeded with status {res.status_code}")
            return res
        except requests.exceptions.HTTPError as err:
            if err.response.status_code < 500:
                print(f"Failed with client error code ... Skipping retry.")
                raise RuntimeError(f"Client error! Please review request.")
            else:
                jitter = random.uniform(-0.1 * delay, 0.1 * delay)
                wait = min(delay * 2, 30) + jitter
                print(f"  Failed ... Retrying in ...s")
                time.sleep(wait)
                delay = min(delay * 2, 30)
    raise RuntimeError(f"All retries to query ... failed!")
```

The network is modelled by an oracle `exec : Nat → CallOutcome` giving, for
each 1-based attempt index, what `requests.get` does on that attempt: it
either returns a response with some status code, or raises a timeout
exception (`requests.exceptions.ConnectTimeout` / `ReadTimeout`, which are
not subclasses of `requests.exceptions.HTTPError`).  `res.raise_for_status()`
raises `HTTPError` exactly for status codes in `[400, 600)`.

Randomness is modelled by an oracle `u : Nat → ℚ`: on attempt `n` Python
draws `random.uniform(-0.1 * delay, 0.1 * delay)`, which equals
`0.1 * delay * u n` for the scaled sample `u n ∈ [-1, 1]`.  Durations are
rationals (Python floats carry no claim-relevant rounding here; all claims
are interval and ordering facts).

The run of a call is summarised by a `Trace`: its outcome, the number of
`requests.get` calls performed, the value of the `delay` variable at the
start of each attempt, and for each executed `time.sleep` the pre-jitter
amount `min(delay * 2, 30)` and the actual slept amount.
-/

namespace RetryBackoff

/-- What `requests.get url` does on one attempt: return a response carrying
a status code, or raise a timeout exception (which is not an `HTTPError`). -/
inductive CallOutcome where
  | ok (status : Nat)
  | timeout
deriving DecidableEq

/-- How one call of `get_with_backoff` ends: a `return res` with the given
status, a `raise RuntimeError(msg)`, or an exception that the function's
`except requests.exceptions.HTTPError` clause does not catch (a timeout)
propagating out of the function. -/
inductive RunResult where
  | returned (status : Nat)
  | runtimeError (msg : String)
  | uncaughtTimeout
deriving DecidableEq

/-- Observable summary of one call of `get_with_backoff`. -/
structure Trace where
  result : RunResult
  /-- number of `requests.get` calls performed -/
  attempts : Nat
  /-- value of the `delay` variable at the start of each attempt, in order -/
  delays : List ℚ
  /-- the pre-jitter amount `min(delay * 2, 30)` of each executed sleep -/
  preJitterWaits : List ℚ
  /-- the amount actually slept, `min(delay * 2, 30) + jitter`, of each sleep -/
  waits : List ℚ
deriving DecidableEq

/-- Python's builtin `min` on two numbers: the first argument when it is
less than or equal to the second, the second otherwise. -/
def pymin (a b : ℚ) : ℚ := if a ≤ b then a else b

theorem pymin_eq_min (a b : ℚ) : pymin a b = min a b := (min_def a b).symm

/-- Message of the `RuntimeError` raised when the budget is exhausted:
`f"All retries to query {url} failed!"`. -/
def exhaustedMsg (url : String) : String :=
  "All retries to query " ++ url ++ " failed!"

/-- Message of the `RuntimeError` raised on a client (4xx) error. -/
def clientErrorMsg : String := "Client error! Please review request."

/-- The `for attempt in range(1, max_retries + 1)` loop of `get_with_backoff`,
by recursion on the number of remaining iterations.  `attempt` is the 1-based
index of the current iteration and `delay` the current value of the `delay`
variable. -/
def backoffLoop (ex : Nat → CallOutcome) (u : Nat → ℚ) (url : String) :
    Nat → Nat → ℚ → Trace
  | 0, _, _ =>
      { result := .runtimeError (exhaustedMsg url)
        attempts := 0, delays := [], preJitterWaits := [], waits := [] }
  | remaining + 1, attempt, delay =>
      match ex attempt with
      | .timeout =>
          { result := .uncaughtTimeout
            attempts := 1, delays := [delay], preJitterWaits := [], waits := [] }
      | .ok s =>
          if 400 ≤ s ∧ s < 600 then
            if s < 500 then
              { result := .runtimeError clientErrorMsg
                attempts := 1, delays := [delay], preJitterWaits := [], waits := [] }
            else
              let jitter := 1/10 * delay * u attempt
              let wait := pymin (delay * 2) 30 + jitter
              let rest := backoffLoop ex u url remaining (attempt + 1) (pymin (delay * 2) 30)
              { result := rest.result
                attempts := rest.attempts + 1
                delays := delay :: rest.delays
                preJitterWaits := pymin (delay * 2) 30 :: rest.preJitterWaits
                waits := wait :: rest.waits }
          else
            { result := .returned s
              attempts := 1, delays := [delay], preJitterWaits := [], waits := [] }

/-- `get_with_backoff(url, max_retries)` under executor oracle `ex` and
jitter oracle `u`.  `range(1, max_retries + 1)` performs
`max(max_retries, 0)` iterations starting at `attempt = 1`; `delay` starts
at `1`. -/
def get_with_backoff (ex : Nat → CallOutcome) (u : Nat → ℚ)
    (url : String) (max_retries : Int) : Trace :=
  backoffLoop ex u url max_retries.toNat 1 1

/-- The attempt yields an HTTP response whose status makes
`raise_for_status` raise an `HTTPError` that the 5xx branch handles. -/
def retryableOutcome (o : CallOutcome) : Prop :=
  ∃ s, o = .ok s ∧ 500 ≤ s ∧ s < 600

/-- The attempt yields an HTTP response whose status makes
`raise_for_status` raise an `HTTPError` with a client (4xx) code. -/
def fatalOutcome (o : CallOutcome) : Prop :=
  ∃ s, o = .ok s ∧ 400 ≤ s ∧ s < 500

/-- The deterministic evolution of the `delay` variable: `delaySeq d i` is
its value after `i` retryable failures, starting from `d`. -/
def delaySeq (d : ℚ) : Nat → ℚ
  | 0 => d
  | i + 1 => pymin (delaySeq d i * 2) 30

/-! ## General lemmas about the loop -/

/-- When every attempt fails retryably, the loop runs all its iterations,
sleeps once per iteration (the last included), and ends by raising the
exhausted-retries `RuntimeError`. -/
theorem backoffLoop_all_retryable (ex : Nat → CallOutcome) (u : Nat → ℚ) (url : String)
    (hex : ∀ n, retryableOutcome (ex n)) :
    ∀ (rem att : Nat) (d : ℚ),
      (backoffLoop ex u url rem att d).result = .runtimeError (exhaustedMsg url) ∧
      (backoffLoop ex u url rem att d).attempts = rem ∧
      (backoffLoop ex u url rem att d).waits.length = rem := by
  intro rem
  induction rem with
  | zero => intro att d; simp [backoffLoop]
  | succ r ih =>
    intro att d
    obtain ⟨s, hs, h5, h6⟩ := hex att
    have h4 : 400 ≤ s := by omega
    have hns : ¬ s < 500 := by omega
    have h := ih (att + 1) (pymin (d * 2) 30)
    simp [backoffLoop, hs, h4, h5, h6, hns, h.1, h.2.1, h.2.2]

/-- The loop never performs more attempts than it has iterations. -/
theorem backoffLoop_attempts_le (ex : Nat → CallOutcome) (u : Nat → ℚ) (url : String) :
    ∀ (rem att : Nat) (d : ℚ), (backoffLoop ex u url rem att d).attempts ≤ rem := by
  intro rem
  induction rem with
  | zero => intro att d; simp [backoffLoop]
  | succ r ih =>
    intro att d
    rcases hx : ex att with s | _
    · by_cases h46 : 400 ≤ s ∧ s < 600
      · by_cases h5 : s < 500
        · simp [backoffLoop, hx, h46, h5]
        · have := ih (att + 1) (pymin (d * 2) 30)
          simp [backoffLoop, hx, h46, h5]
          omega
      · simp [backoffLoop, hx, h46]
    · simp [backoffLoop, hx]

/-- Shifting the start of the delay evolution by one failure. -/
theorem delaySeq_shift (d : ℚ) : ∀ i : Nat, delaySeq d (i + 1) = delaySeq (pymin (d * 2) 30) i
  | 0 => rfl
  | i + 1 => by
    show pymin (delaySeq d (i + 1) * 2) 30 = pymin (delaySeq (pymin (d * 2) 30) i * 2) 30
    rw [delaySeq_shift d i]

/-- Whatever the executor and jitter do, the `delay` variable at the start
of 0-based attempt `j` is `delaySeq d j`: it only ever evolves by
`delay = min(delay * 2, 30)`, once per executed sleep. -/
theorem backoffLoop_delays_getD (ex : Nat → CallOutcome) (u : Nat → ℚ) (url : String) :
    ∀ (rem att : Nat) (d : ℚ) (j : Nat),
      j < (backoffLoop ex u url rem att d).delays.length →
      (backoffLoop ex u url rem att d).delays.getD j 0 = delaySeq d j := by
  intro rem
  induction rem with
  | zero => intro att d j hj; simp [backoffLoop] at hj
  | succ r ih =>
    intro att d j hj
    rcases hx : ex att with s | _
    · by_cases h46 : 400 ≤ s ∧ s < 600
      · by_cases h5 : s < 500
        · have hj0 : j = 0 := by
            simp [backoffLoop, hx, h46, h5] at hj
            omega
          subst hj0
          simp [backoffLoop, hx, h46, h5, delaySeq]
        · rcases j with _ | j
          · simp [backoffLoop, hx, h46, h5, delaySeq]
          · have hj' : j < (backoffLoop ex u url r (att + 1) (pymin (d * 2) 30)).delays.length := by
              simp [backoffLoop, hx, h46, h5] at hj
              omega
            have := ih (att + 1) (pymin (d * 2) 30) j hj'
            rw [delaySeq_shift]
            simpa [backoffLoop, hx, h46, h5] using this
      · have hj0 : j = 0 := by
          simp [backoffLoop, hx, h46] at hj
          omega
        subst hj0
        simp [backoffLoop, hx, h46, delaySeq]
    · have hj0 : j = 0 := by
        simp [backoffLoop, hx] at hj
        omega
      subst hj0
      simp [backoffLoop, hx, delaySeq]

/-- Whatever the executor and jitter do, the pre-jitter amount of the
0-based `i`-th executed sleep is `delaySeq d (i + 1)`, i.e. the `delay`
value after `i + 1` doublings-with-cap of the start value. -/
theorem backoffLoop_preJitter_getD (ex : Nat → CallOutcome) (u : Nat → ℚ) (url : String) :
    ∀ (rem att : Nat) (d : ℚ) (i : Nat),
      i < (backoffLoop ex u url rem att d).preJitterWaits.length →
      (backoffLoop ex u url rem att d).preJitterWaits.getD i 0 = delaySeq d (i + 1) := by
  intro rem
  induction rem with
  | zero => intro att d i hi; simp [backoffLoop] at hi
  | succ r ih =>
    intro att d i hi
    rcases hx : ex att with s | _
    · by_cases h46 : 400 ≤ s ∧ s < 600
      · by_cases h5 : s < 500
        · simp [backoffLoop, hx, h46, h5] at hi
        · rcases i with _ | i
          · simp [backoffLoop, hx, h46, h5, delaySeq]
          · have hi' : i < (backoffLoop ex u url r (att + 1) (pymin (d * 2) 30)).preJitterWaits.length := by
              simp [backoffLoop, hx, h46, h5] at hi
              omega
            have := ih (att + 1) (pymin (d * 2) 30) i hi'
            rw [show i + 1 + 1 = i + 1 + 1 from rfl, delaySeq_shift]
            simpa [backoffLoop, hx, h46, h5] using this
      · simp [backoffLoop, hx, h46] at hi
    · simp [backoffLoop, hx] at hi

/-- Starting from the source's base delay 1, the delay evolution is
exactly exponential doubling capped at 30. -/
theorem delaySeq_one : ∀ i : Nat, delaySeq 1 i = min ((2:ℚ) ^ i) 30 := by
  intro i
  induction i with
  | zero =>
    rw [pow_zero, min_eq_left (by norm_num : (1:ℚ) ≤ 30)]
    rfl
  | succ i ih =>
    show pymin (delaySeq 1 i * 2) 30 = min ((2:ℚ) ^ (i + 1)) 30
    rw [pymin_eq_min, ih]
    rcases le_total ((2:ℚ) ^ i) 30 with h | h
    · rw [min_eq_left h, pow_succ]
    · have h2 : (30:ℚ) ≤ 2 ^ (i + 1) := by
        rw [pow_succ]
        linarith
      rw [min_eq_right h, min_eq_right h2,
        min_eq_right (by norm_num : (30:ℚ) ≤ 30 * 2)]

/-- If the first `k` attempts starting at index `att` fail retryably and
attempt `att + k` succeeds, a loop with more than `k` iterations left
performs exactly `k + 1` attempts and returns that success. -/
theorem backoffLoop_succeeds (ex : Nat → CallOutcome) (u : Nat → ℚ) (url : String)
    (s : Nat) (hs : ¬ (400 ≤ s ∧ s < 600)) :
    ∀ (k rem att : Nat) (d : ℚ), k < rem →
      (∀ j, j < k → retryableOutcome (ex (att + j))) →
      ex (att + k) = .ok s →
      (backoffLoop ex u url rem att d).attempts = k + 1 ∧
      (backoffLoop ex u url rem att d).result = .returned s := by
  intro k
  induction k with
  | zero =>
    intro rem att d hrem hr hsucc
    obtain ⟨r, rfl⟩ : ∃ r, rem = r + 1 := ⟨rem - 1, by omega⟩
    rw [Nat.add_zero] at hsucc
    simp [backoffLoop, hsucc, hs]
  | succ k ih =>
    intro rem att d hrem hr hsucc
    obtain ⟨r, rfl⟩ : ∃ r, rem = r + 1 := ⟨rem - 1, by omega⟩
    obtain ⟨t, ht, ht5, ht6⟩ := hr 0 (by omega)
    rw [Nat.add_zero] at ht
    have ht4 : 400 ≤ t := by omega
    have htns : ¬ t < 500 := by omega
    have ihh := ih r (att + 1) (pymin (d * 2) 30) (by omega)
      (fun j hj => by
        have h := hr (j + 1) (by omega)
        rwa [show att + (j + 1) = att + 1 + j from by omega] at h)
      (by rwa [show att + 1 + k = att + (k + 1) from by omega])
    simp [backoffLoop, ht, ht4, ht5, ht6, htns, ihh.1, ihh.2]

/-- Each executed sleep lasts its pre-jitter amount perturbed by at most
one tenth of the current delay, hence at most one tenth of the pre-jitter
amount, and never lasts a negative time — provided the raw uniform samples
lie in `[-1, 1]` and the incoming delay lies in `[0, 30]`. -/
theorem backoffLoop_waits_bound (ex : Nat → CallOutcome) (u : Nat → ℚ) (url : String)
    (hu : ∀ n, -1 ≤ u n ∧ u n ≤ 1) :
    ∀ (rem att : Nat) (d : ℚ), 0 ≤ d → d ≤ 30 →
      ∀ p ∈ ((backoffLoop ex u url rem att d).waits.zip
              (backoffLoop ex u url rem att d).preJitterWaits),
        |p.1 - p.2| ≤ 1/10 * p.2 ∧ 0 ≤ p.1 := by
  intro rem
  induction rem with
  | zero => intro att d h0 h30 p hp; simp [backoffLoop] at hp
  | succ r ih =>
    intro att d h0 h30 p hp
    rcases hx : ex att with s | _
    · by_cases h46 : 400 ≤ s ∧ s < 600
      · by_cases h5 : s < 500
        · simp [backoffLoop, hx, h46, h5] at hp
        · have hpwd : d ≤ pymin (d * 2) 30 := by
            rw [pymin_eq_min]
            exact le_min (by linarith) h30
          have hpw0 : 0 ≤ pymin (d * 2) 30 := le_trans h0 hpwd
          have hpw30 : pymin (d * 2) 30 ≤ 30 := by
            rw [pymin_eq_min]
            exact min_le_right _ _
          simp only [backoffLoop, hx, if_pos h46, if_neg h5, List.zip_cons_cons,
            List.mem_cons] at hp
          rcases hp with hp | hp
          · subst hp
            have h1 : |u att| ≤ 1 := abs_le.mpr ⟨(hu att).1, (hu att).2⟩
            have hj : |1/10 * d * u att| ≤ 1/10 * d := by
              rw [abs_mul]
              calc |1/10 * d| * |u att| ≤ |1/10 * d| * 1 :=
                    mul_le_mul_of_nonneg_left h1 (abs_nonneg _)
                _ = 1/10 * d := by rw [mul_one, abs_of_nonneg (by linarith)]
            have hj' : |1/10 * d * u att| ≤ 1/10 * pymin (d * 2) 30 :=
              le_trans hj (by linarith)
            constructor
            · have he : pymin (d * 2) 30 + 1/10 * d * u att - pymin (d * 2) 30
                  = 1/10 * d * u att := by ring
              rw [he]
              exact hj'
            · have hlow := (abs_le.mp hj').1
              linarith
          · exact ih (att + 1) (pymin (d * 2) 30) hpw0 hpw30 p hp
      · simp [backoffLoop, hx, h46] at hp
    · simp [backoffLoop, hx] at hp

/-- Along the whole evolution the delay stays within `[0, 30]` when it
starts there. -/
theorem delaySeq_bounds (d : ℚ) (h0 : 0 ≤ d) (h30 : d ≤ 30) :
    ∀ i, 0 ≤ delaySeq d i ∧ delaySeq d i ≤ 30 := by
  intro i
  induction i with
  | zero => exact ⟨h0, h30⟩
  | succ i ih =>
    constructor
    · show 0 ≤ pymin (delaySeq d i * 2) 30
      rw [pymin_eq_min]
      exact le_min (by linarith [ih.1]) (by norm_num)
    · show pymin (delaySeq d i * 2) 30 ≤ 30
      rw [pymin_eq_min]
      exact min_le_right _ _

/-- The delay evolution is non-decreasing when it starts in `[0, 30]`. -/
theorem delaySeq_mono_step (d : ℚ) (h0 : 0 ≤ d) (h30 : d ≤ 30) (i : Nat) :
    delaySeq d i ≤ delaySeq d (i + 1) := by
  have hb := delaySeq_bounds d h0 h30 i
  show delaySeq d i ≤ pymin (delaySeq d i * 2) 30
  rw [pymin_eq_min]
  exact le_min (by linarith [hb.1]) hb.2

/-! ## Claims -/

/-- C1 fails on the code as stated: with base delay 1 and cap 30 the
pre-jitter delay slept before the first retry is `min(delay * 2, 30) = 2`,
not `min(base * 2^(1-1), cap) = 1`; the wait is computed from the doubled
delay, so it never equals the base delay. -/
theorem claim1_counterexample :
    (get_with_backoff (fun _ => .ok 503) (fun _ => 0) "u" 4).preJitterWaits.getD 0 0 = 2 ∧
    ¬ ((2:ℚ) = min (1 * 2 ^ (1 - 1)) 30) := by
  constructor
  · norm_num [get_with_backoff, backoffLoop, pymin]
  · rw [pow_zero, mul_one, min_eq_left (by norm_num : (1:ℚ) ≤ 30)]
    norm_num

/-- C1 (amended): for every attempt `n ≥ 1` (written `j = n - 1` below),
the `delay` variable at the start of attempt `n` equals
`min(base * 2^(n-1), cap)`, but the pre-jitter delay slept after attempt
`n` fails retryably is `min(delay * 2, 30) = min(base * 2^n, cap)`; in
particular the pre-jitter delay before the first retry is `2 * base = 2`,
not the base delay. -/
theorem claim1_backoff_delay_formula (ex : Nat → CallOutcome) (u : Nat → ℚ)
    (url : String) (m : Int) :
    (∀ j, j < (get_with_backoff ex u url m).delays.length →
        (get_with_backoff ex u url m).delays.getD j 0 = min ((1:ℚ) * 2 ^ j) 30) ∧
    (∀ i, i < (get_with_backoff ex u url m).preJitterWaits.length →
        (get_with_backoff ex u url m).preJitterWaits.getD i 0 = min ((1:ℚ) * 2 ^ (i + 1)) 30) := by
  constructor
  · intro j hj
    have h := backoffLoop_delays_getD ex u url m.toNat 1 1 j hj
    rw [show (get_with_backoff ex u url m) = backoffLoop ex u url m.toNat 1 1 from rfl,
      h, delaySeq_one, one_mul]
  · intro i hi
    have h := backoffLoop_preJitter_getD ex u url m.toNat 1 1 i hi
    rw [show (get_with_backoff ex u url m) = backoffLoop ex u url m.toNat 1 1 from rfl,
      h, delaySeq_one, one_mul]

theorem claim1_backoff_delay_formula_witness :
    (get_with_backoff (fun _ => .ok 503) (fun _ => 0) "u" 2).delays.getD 0 0
      = min ((1:ℚ) * 2 ^ 0) 30 ∧
    (get_with_backoff (fun _ => .ok 503) (fun _ => 0) "u" 2).preJitterWaits.getD 0 0
      = min ((1:ℚ) * 2 ^ (0 + 1)) 30 :=
  ⟨(claim1_backoff_delay_formula (fun _ => .ok 503) (fun _ => 0) "u" 2).1 0
      (by norm_num [get_with_backoff, backoffLoop, pymin]),
   (claim1_backoff_delay_formula (fun _ => .ok 503) (fun _ => 0) "u" 2).2 0
      (by norm_num [get_with_backoff, backoffLoop, pymin])⟩


/-- C4: against an executor that fails retryably on every call, and with
budget `max_retries ≥ 1`, `get_with_backoff` performs exactly `max_retries`
attempts and then raises the exhausted-retries `RuntimeError` instead of
returning a value. -/
theorem claim4_all_retryable_exhausts (ex : Nat → CallOutcome) (u : Nat → ℚ)
    (url : String) (m : Int) (hm : 1 ≤ m) (hex : ∀ n, retryableOutcome (ex n)) :
    (get_with_backoff ex u url m).attempts = m.toNat ∧
    (get_with_backoff ex u url m).result = .runtimeError (exhaustedMsg url) := by
  have h := backoffLoop_all_retryable ex u url hex m.toNat 1 1
  exact ⟨h.2.1, h.1⟩

theorem claim4_all_retryable_exhausts_witness :
    (1 : Int) ≤ 2 ∧
    ((get_with_backoff (fun _ => .ok 503) (fun _ => 0) "u" 2).attempts = (2 : Int).toNat ∧
     (get_with_backoff (fun _ => .ok 503) (fun _ => 0) "u" 2).result
       = .runtimeError (exhaustedMsg "u")) :=
  ⟨by norm_num,
   claim4_all_retryable_exhausts (fun _ => .ok 503) (fun _ => 0) "u" 2 (by norm_num)
     (fun _ => ⟨503, rfl, by norm_num, by norm_num⟩)⟩

/-- C2 fails on the code as stated: `get_with_backoff` sleeps inside the
`except` branch with no `attempt < max_retries` guard, so with base 1s,
cap 30s, `max_retries = 4` and every failure retryable it performs four
backoff waits, not three — a wait follows the final exhausted attempt. -/
theorem claim2_counterexample :
    (get_with_backoff (fun _ => .ok 503) (fun _ => 0) "u" 4).waits.length = 4 ∧
    (get_with_backoff (fun _ => .ok 503) (fun _ => 0) "u" 4).waits.length ≠ 3 ∧
    (get_with_backoff (fun _ => .ok 503) (fun _ => 0) "u" 4).result
      = .runtimeError (exhaustedMsg "u") := by
  norm_num [get_with_backoff, backoffLoop, pymin]

/-- C2 (amended): in `get_with_backoff` a backoff wait follows every
retryable failure, including the one on the final attempt: with every
failure retryable, the number of waits equals the number of attempts
(`max(max_retries, 0)` of each), so the exhausted final attempt is also
followed by a wait. -/
theorem claim2_wait_after_every_retryable (ex : Nat → CallOutcome) (u : Nat → ℚ)
    (url : String) (m : Int) (hex : ∀ n, retryableOutcome (ex n)) :
    (get_with_backoff ex u url m).waits.length = m.toNat ∧
    (get_with_backoff ex u url m).waits.length = (get_with_backoff ex u url m).attempts := by
  have h := backoffLoop_all_retryable ex u url hex m.toNat 1 1
  exact ⟨h.2.2, h.2.2.trans h.2.1.symm⟩

theorem claim2_wait_after_every_retryable_witness :
    (get_with_backoff (fun _ => .ok 503) (fun _ => 0) "u" 4).waits.length = (4 : Int).toNat ∧
    (get_with_backoff (fun _ => .ok 503) (fun _ => 0) "u" 4).waits.length
      = (get_with_backoff (fun _ => .ok 503) (fun _ => 0) "u" 4).attempts :=
  claim2_wait_after_every_retryable (fun _ => .ok 503) (fun _ => 0) "u" 4
    (fun _ => ⟨503, rfl, by norm_num, by norm_num⟩)

/-- C3: the code contradicts this claim (and the notebook's own markdown,
which says to retry "server-side (5xx) errors or network exceptions"): the
`except requests.exceptions.HTTPError` clause does not catch
`requests.exceptions.ConnectTimeout` / `ReadTimeout`, so a timeout on the
first attempt propagates uncaught to the caller after exactly one attempt,
with no wait and no retry, even with budget left (`max_retries = 3`). -/
theorem claim3_timeout_not_retried :
    (get_with_backoff (fun _ => .timeout) (fun _ => 0) "u" 3).result = .uncaughtTimeout ∧
    (get_with_backoff (fun _ => .timeout) (fun _ => 0) "u" 3).attempts = 1 ∧
    (get_with_backoff (fun _ => .timeout) (fun _ => 0) "u" 3).waits = [] := by
  norm_num [get_with_backoff, backoffLoop]

/-- C5 fails on the code as stated: the exhausted-retries `RuntimeError`
carries only the message `f"All retries to query {url} failed!"`, so two
runs whose last (and only) causes differ — every attempt failing with 500
versus every attempt failing with 503 — raise equal errors, and the caller
cannot recover the last cause from the raised error. -/
theorem claim5_counterexample :
    (get_with_backoff (fun _ => .ok 500) (fun _ => 0) "u" 2).result
      = (get_with_backoff (fun _ => .ok 503) (fun _ => 0) "u" 2).result ∧
    (get_with_backoff (fun _ => .ok 500) (fun _ => 0) "u" 2).result
      = .runtimeError (exhaustedMsg "u") ∧
    (500 : Nat) ≠ 503 := by
  norm_num [get_with_backoff, backoffLoop, pymin]

/-- C5 (amended): the error raised after the budget is exhausted is a
`RuntimeError` whose message depends only on the URL, not on the last
failure: any two all-retryable runs against the same URL and budget raise
equal errors, whatever their executors and jitters did. -/
theorem claim5_exhausted_error_ignores_cause (ex1 ex2 : Nat → CallOutcome)
    (u1 u2 : Nat → ℚ) (url : String) (m : Int)
    (h1 : ∀ n, retryableOutcome (ex1 n)) (h2 : ∀ n, retryableOutcome (ex2 n)) :
    (get_with_backoff ex1 u1 url m).result = .runtimeError (exhaustedMsg url) ∧
    (get_with_backoff ex1 u1 url m).result = (get_with_backoff ex2 u2 url m).result := by
  have g1 := backoffLoop_all_retryable ex1 u1 url h1 m.toNat 1 1
  have g2 := backoffLoop_all_retryable ex2 u2 url h2 m.toNat 1 1
  exact ⟨g1.1, g1.1.trans g2.1.symm⟩

theorem claim5_exhausted_error_ignores_cause_witness :
    (get_with_backoff (fun _ => .ok 500) (fun _ => 0) "u" 2).result
      = .runtimeError (exhaustedMsg "u") ∧
    (get_with_backoff (fun _ => .ok 500) (fun _ => 0) "u" 2).result
      = (get_with_backoff (fun _ => .ok 503) (fun _ => 0) "u" 2).result :=
  claim5_exhausted_error_ignores_cause (fun _ => .ok 500) (fun _ => .ok 503)
    (fun _ => 0) (fun _ => 0) "u" 2
    (fun _ => ⟨500, rfl, by norm_num, by norm_num⟩)
    (fun _ => ⟨503, rfl, by norm_num, by norm_num⟩)

/-- C6: against an executor whose every call yields a fatal (4xx) failure,
`get_with_backoff` with any budget `max_retries ≥ 1` performs exactly one
attempt and raises the client-error `RuntimeError` immediately, with no
backoff wait. -/
theorem claim6_fatal_fails_immediately (ex : Nat → CallOutcome) (u : Nat → ℚ)
    (url : String) (m : Int) (hm : 1 ≤ m) (hex : ∀ n, fatalOutcome (ex n)) :
    (get_with_backoff ex u url m).attempts = 1 ∧
    (get_with_backoff ex u url m).result = .runtimeError clientErrorMsg ∧
    (get_with_backoff ex u url m).waits = [] := by
  obtain ⟨s, hs, h4, h5⟩ := hex 1
  have h6 : s < 600 := by omega
  have hrm : m.toNat = (m.toNat - 1) + 1 := by omega
  unfold get_with_backoff
  rw [hrm]
  simp [backoffLoop, hs, h4, h5, h6]

theorem claim6_fatal_fails_immediately_witness :
    (1 : Int) ≤ 3 ∧
    ((get_with_backoff (fun _ => .ok 404) (fun _ => 0) "u" 3).attempts = 1 ∧
     (get_with_backoff (fun _ => .ok 404) (fun _ => 0) "u" 3).result
       = .runtimeError clientErrorMsg ∧
     (get_with_backoff (fun _ => .ok 404) (fun _ => 0) "u" 3).waits = []) :=
  ⟨by norm_num,
   claim6_fatal_fails_immediately (fun _ => .ok 404) (fun _ => 0) "u" 3 (by norm_num)
     (fun _ => ⟨404, rfl, by norm_num, by norm_num⟩)⟩

/-- C10: called with `max_retries ≤ 0`, the `for attempt in
range(1, max_retries + 1)` loop body never runs — no network call, no wait,
no attempt — and the function falls through to the unconditional
exhausted-retries `RuntimeError`. -/
theorem claim10_nonpositive_budget (ex : Nat → CallOutcome) (u : Nat → ℚ)
    (url : String) (m : Int) (hm : m ≤ 0) :
    get_with_backoff ex u url m =
      { result := .runtimeError (exhaustedMsg url)
        attempts := 0, delays := [], preJitterWaits := [], waits := [] } := by
  have h : m.toNat = 0 := by omega
  unfold get_with_backoff
  rw [h]
  rfl

theorem claim10_nonpositive_budget_witness :
    (-1 : Int) ≤ 0 ∧
    get_with_backoff (fun _ => .ok 503) (fun _ => 0) "u" (-1) =
      { result := .runtimeError (exhaustedMsg "u")
        attempts := 0, delays := [], preJitterWaits := [], waits := [] } :=
  ⟨by norm_num,
   claim10_nonpositive_budget (fun _ => .ok 503) (fun _ => 0) "u" (-1) (by norm_num)⟩

/-- C7: against an executor that fails retryably on its first `k` calls
(`k < max_retries`) and succeeds on call `k + 1`, `get_with_backoff`
performs exactly `k + 1` attempts and returns the success payload of the
`(k + 1)`-th call. -/
theorem claim7_eventual_success (ex : Nat → CallOutcome) (u : Nat → ℚ)
    (url : String) (m : Int) (k : Nat) (s : Nat)
    (hk : (k : Int) < m)
    (hr : ∀ j, j < k → retryableOutcome (ex (1 + j)))
    (hsucc : ex (1 + k) = .ok s)
    (hs : ¬ (400 ≤ s ∧ s < 600)) :
    (get_with_backoff ex u url m).attempts = k + 1 ∧
    (get_with_backoff ex u url m).result = .returned s :=
  backoffLoop_succeeds ex u url s hs k m.toNat 1 1 (by omega) hr hsucc

theorem claim7_eventual_success_witness :
    ((1 : Nat) : Int) < 3 ∧
    ((get_with_backoff (fun n => if n = 1 then .ok 503 else .ok 200) (fun _ => 0) "u" 3).attempts
       = 1 + 1 ∧
     (get_with_backoff (fun n => if n = 1 then .ok 503 else .ok 200) (fun _ => 0) "u" 3).result
       = .returned 200) :=
  ⟨by norm_num,
   claim7_eventual_success (fun n => if n = 1 then .ok 503 else .ok 200) (fun _ => 0) "u" 3 1 200
     (by norm_num)
     (fun j hj => by
       have hj0 : j = 0 := by omega
       subst hj0
       exact ⟨503, rfl, by norm_num, by norm_num⟩)
     rfl (by omega)⟩

/-- C8: whenever the uniform samples stay in their `[-1, 1]` range — i.e.
the jitter drawn on each attempt stays in `[-0.1 * delay, 0.1 * delay]` —
every slept duration differs from its pre-jitter amount `min(delay * 2, 30)`
by at most ten percent of that amount, and is never negative. -/
theorem claim8_jitter_bounded (ex : Nat → CallOutcome) (u : Nat → ℚ)
    (url : String) (m : Int) (hu : ∀ n, -1 ≤ u n ∧ u n ≤ 1) :
    ∀ p ∈ ((get_with_backoff ex u url m).waits.zip
            (get_with_backoff ex u url m).preJitterWaits),
      |p.1 - p.2| ≤ 1/10 * p.2 ∧ 0 ≤ p.1 :=
  backoffLoop_waits_bound ex u url hu m.toNat 1 1 (by norm_num) (by norm_num)

theorem claim8_jitter_bounded_witness :
    |(21/10 : ℚ) - 2| ≤ 1/10 * 2 ∧ (0 : ℚ) ≤ 21/10 :=
  claim8_jitter_bounded (fun _ => .ok 503) (fun _ => 1) "u" 1
    (fun _ => ⟨by norm_num, by norm_num⟩) (21/10, 2)
    (by norm_num [get_with_backoff, backoffLoop, pymin])

/-- C9: throughout any execution, the sequence of `delay` values across
successive attempts is monotonically non-decreasing, so is the sequence of
doubled (pre-cap, pre-jitter) values fed into the cap, every delay value is
non-negative, and the number of attempts never exceeds the configured
maximum `max(max_retries, 0)`. -/
theorem claim9_invariants (ex : Nat → CallOutcome) (u : Nat → ℚ)
    (url : String) (m : Int) :
    List.Chain' (· ≤ ·) (get_with_backoff ex u url m).delays ∧
    List.Chain' (· ≤ ·) ((get_with_backoff ex u url m).delays.map (fun q => q * 2)) ∧
    (∀ q ∈ (get_with_backoff ex u url m).delays, 0 ≤ q) ∧
    (get_with_backoff ex u url m).attempts ≤ m.toNat := by
  have hchain : List.Chain' (· ≤ ·) (get_with_backoff ex u url m).delays := by
    rw [List.chain'_iff_get]
    intro i h
    have h1 : i < (get_with_backoff ex u url m).delays.length := by omega
    have h2 : i + 1 < (get_with_backoff ex u url m).delays.length := by omega
    have e1 := List.getD_eq_getElem (get_with_backoff ex u url m).delays 0 h1
    have e2 := List.getD_eq_getElem (get_with_backoff ex u url m).delays 0 h2
    simp only [List.get_eq_getElem]
    rw [← e1, ← e2,
      show (get_with_backoff ex u url m) = backoffLoop ex u url m.toNat 1 1 from rfl,
      backoffLoop_delays_getD ex u url m.toNat 1 1 i h1,
      backoffLoop_delays_getD ex u url m.toNat 1 1 (i + 1) h2]
    exact delaySeq_mono_step 1 (by norm_num) (by norm_num) i
  refine ⟨hchain, ?_, ?_, backoffLoop_attempts_le ex u url m.toNat 1 1⟩
  · rw [List.chain'_map]
    exact hchain.imp fun a b hab => mul_le_mul_of_nonneg_right hab (by norm_num)
  · intro q hq
    obtain ⟨i, hi, rfl⟩ := List.mem_iff_getElem.mp hq
    rw [← List.getD_eq_getElem _ 0 hi,
      show (get_with_backoff ex u url m) = backoffLoop ex u url m.toNat 1 1 from rfl,
      backoffLoop_delays_getD ex u url m.toNat 1 1 i hi]
    exact (delaySeq_bounds 1 (by norm_num) (by norm_num) i).1

theorem claim9_invariants_witness :
    List.Chain' (· ≤ ·) (get_with_backoff (fun _ => .ok 503) (fun _ => 0) "u" 2).delays ∧
    List.Chain' (· ≤ ·)
      ((get_with_backoff (fun _ => .ok 503) (fun _ => 0) "u" 2).delays.map (fun q => q * 2)) ∧
    (0 : ℚ) ≤ 1 ∧
    (get_with_backoff (fun _ => .ok 503) (fun _ => 0) "u" 2).attempts ≤ (2 : Int).toNat :=
  ⟨(claim9_invariants (fun _ => .ok 503) (fun _ => 0) "u" 2).1,
   (claim9_invariants (fun _ => .ok 503) (fun _ => 0) "u" 2).2.1,
   (claim9_invariants (fun _ => .ok 503) (fun _ => 0) "u" 2).2.2.1 1
     (by norm_num [get_with_backoff, backoffLoop, pymin]),
   (claim9_invariants (fun _ => .ok 503) (fun _ => 0) "u" 2).2.2.2⟩

end RetryBackoff
